import Mathlib

/-!
Shallow embedding of the SCL3300 inclinometer driver (Rust crate `scl3300`).

Machine integers are modelled as `Nat` with explicit `% 256` / `% 65536`
truncation where the Rust code relies on fixed-width wrap-around.  Fallible
Rust functions returning `Result` are modelled with `Except`; the SPI device
and delay provider are modelled as explicit state (a list of response frames
to be consumed, plus a trace of issued transactions).
-/

namespace Scl3300

/-- Register bank selector (src/operation.rs, `Bank`). -/
inductive Bank where
  | zero
  | one
deriving DecidableEq, Repr

/-- Readable outputs (src/operation.rs, `Output`). -/
inductive Output where
  | accelerationX
  | accelerationY
  | accelerationZ
  | angleX
  | angleY
  | angleZ
  | temperature
  | selfTest
  | status
  | error1
  | error2
  | command
  | whoAmI
  | serial1
  | serial2
  | currentBank
deriving DecidableEq, Repr

/-- Measurement modes (src/measurement_mode.rs, `MeasurementMode`). -/
inductive MeasurementMode where
  | fullScale12
  | fullScale24
  | inclination
  | inclinationLowNoise
deriving DecidableEq, Repr

/-- Logical operations (src/operation.rs, `Operation`). -/
inductive Operation where
  | read : Output → Operation
  | enableAngleOutputs
  | changeMode : MeasurementMode → Operation
  | powerDown
  | wakeUp
  | reset
  | switchBank : Bank → Operation
deriving DecidableEq, Repr

/-- A 4-byte SPI frame (src/frame.rs, `Frame`); each field is a byte (< 256). -/
structure Frame where
  b0 : Nat
  b1 : Nat
  b2 : Nat
  b3 : Nat
deriving DecidableEq, Repr

/-- The 32-bit frame constant of an operation: the `u32` value matched in
`Operation::to_frame` (src/operation.rs). -/
def Operation.frameWord : Operation → Nat
  | .read .accelerationX             => 0x040000F7
  | .read .accelerationY             => 0x080000FD
  | .read .accelerationZ             => 0x0C0000FB
  | .read .selfTest                  => 0x100000E9
  | .enableAngleOutputs              => 0xB0001F6F
  | .read .angleX                    => 0x240000C7
  | .read .angleY                    => 0x280000CD
  | .read .angleZ                    => 0x2C0000CB
  | .read .temperature               => 0x140000EF
  | .read .status                    => 0x180000E5
  | .read .error1                    => 0x1C0000E3
  | .read .error2                    => 0x200000C1
  | .read .command                   => 0x340000DF
  | .changeMode .fullScale12         => 0xB400001F
  | .changeMode .fullScale24         => 0xB4000102
  | .changeMode .inclination         => 0xB4000225
  | .changeMode .inclinationLowNoise => 0xB4000338
  | .powerDown                       => 0xB400046B
  | .wakeUp                          => 0xB400001F
  | .reset                           => 0xB4002098
  | .read .whoAmI                    => 0x40000091
  | .read .serial1                   => 0x640000A7
  | .read .serial2                   => 0x680000AD
  | .read .currentBank               => 0x7C0000B3
  | .switchBank .zero                => 0xFC000073
  | .switchBank .one                 => 0xFC00016E

/-- Big-endian byte decomposition of a 32-bit word (`u32::to_be_bytes`). -/
def u32ToBeBytes (n : Nat) : Frame :=
  ⟨n / 2 ^ 24 % 256, n / 2 ^ 16 % 256, n / 2 ^ 8 % 256, n % 256⟩

/-- `Operation::to_frame` (src/operation.rs): the frame constant, decomposed
into its big-endian bytes. -/
def Operation.to_frame (op : Operation) : Frame :=
  u32ToBeBytes op.frameWord

/-- One round of the CRC-8 inner loop (src/frame.rs, `crc8`): operating on a
`u8`, shift left (wrapping) and conditionally xor the polynomial `0x1D`. -/
def crc8Round (crc : Nat) : Nat :=
  if crc &&& 0x80 > 0 then ((crc <<< 1) ^^^ 0x1d) % 256 else (crc <<< 1) % 256

/-- Processing of one input byte in `crc8` (src/frame.rs): xor the byte into
the accumulator, then run 8 shift rounds. -/
def crc8Byte (crc byte : Nat) : Nat :=
  (List.range 8).foldl (fun c _ => crc8Round c) (crc ^^^ byte)

/-- `crc8` (src/frame.rs): CRC-8 with initial value `0xFF`, polynomial
`0x1D`, 8 iterations per byte and a final one's-complement (`!crc` on `u8`,
i.e. xor with `0xFF`). -/
def crc8 (data : List Nat) : Nat :=
  (data.foldl crc8Byte 0xff) ^^^ 0xff

deriving instance DecidableEq for Except

/-- Driver error kinds (src/error.rs, `Error<E>`; the transport error payload
is abstracted away). -/
inductive SclError where
  | startup
  | returnStatus
  | crc
  | spi
deriving DecidableEq, Repr

/-- `Frame::check_crc` (src/frame.rs): recompute the CRC over bytes 0–2 and
compare with byte 3; a mismatch is the `Crc` error. -/
def Frame.check_crc (f : Frame) : Except SclError Unit :=
  if crc8 [f.b0, f.b1, f.b2] = f.b3 then .ok () else .error .crc

/-- `Frame::data` (src/frame.rs): big-endian combination of bytes 1–2. -/
def Frame.data (f : Frame) : Nat :=
  f.b1 * 256 + f.b2

/-- Return status of a received frame (src/frame.rs, `ReturnStatus`). -/
inductive ReturnStatus where
  | startupInProgress
  | normalOperation
  | error
deriving DecidableEq, Repr

/-- `Frame::return_status` (src/frame.rs): decode the low 2 bits of byte 0;
the Rust code's `unreachable!()` arm (encoding `0b10`) is modelled as
`none`. -/
def Frame.return_status (f : Frame) : Option ReturnStatus :=
  match f.b0 &&& 0b11 with
  | 0 => some .startupInProgress
  | 1 => some .normalOperation
  | 3 => some .error
  | _ => none

/-- Minimum inter-transaction delay (src/lib.rs, `MIN_WAIT_TIME_NS`). -/
def MIN_WAIT_TIME_NS : Nat := 10000

/-- Wake-up delay (src/lib.rs, `WAKE_UP_TIME_NS`). -/
def WAKE_UP_TIME_NS : Nat := 1000000

/-- Reset delay (src/lib.rs, `RESET_TIME_NS`). -/
def RESET_TIME_NS : Nat := 1000000

/-- `MeasurementMode::start_up_wait_time_ns` (src/measurement_mode.rs):
mode-dependent settle time after enabling angle outputs. -/
def MeasurementMode.start_up_wait_time_ns : MeasurementMode → Nat
  | .fullScale12 => 25000000
  | .fullScale24 => 15000000
  | .inclination | .inclinationLowNoise => 100000000

/-- One issued SPI transaction: the request frame written to the bus and the
delay performed after it (`SpiOperation::TransferInPlace` followed by
`SpiOperation::DelayNs` in src/lib.rs, `transfer_inner`). -/
structure Txn where
  request : Frame
  delayNs : Nat
deriving DecidableEq, Repr

/-- Model of the SPI device and bus history: the frames the chip will answer
with (consumed one per transaction; an empty list models a transport
failure), the trace of transactions issued so far, and the chip's currently
selected register bank (updated by `SwitchBank` requests). -/
structure SpiState where
  responses : List Frame
  trace : List Txn
  chipBank : Bank
deriving Repr

/-- Run-time outcome of a driver computation: a returned `Error` value, or a
Rust panic (the `unreachable!()` in `Frame::return_status`). -/
inductive Outcome where
  | err : SclError → Outcome
  | panic
deriving DecidableEq, Repr

/-- Driver computations: state passing over the SPI model.  The state is
threaded through even when the computation fails, because the transactions
issued before the failure did happen on the bus. -/
def M (α : Type) : Type := SpiState → Except Outcome α × SpiState

/-- Sequencing of driver computations (Rust's `?` operator: on failure the
rest is skipped, but the state reached so far is kept). -/
def M.bind {α β : Type} (ma : M α) (f : α → M β) : M β := fun s =>
  match ma s with
  | (.error o, s1) => (.error o, s1)
  | (.ok a, s1) => f a s1

/-- A computation returning a value without touching the bus. -/
def M.pure {α : Type} (a : α) : M α := fun s => (.ok a, s)

instance : Monad M where
  pure := M.pure
  bind := M.bind

/-- `Scl3300::transfer_inner` (src/lib.rs): send the operation's frame,
delay for `wait_us.unwrap_or(MIN_WAIT_TIME_NS)` nanoseconds, and return the
frame the chip answered with; a transport failure is the `Spi` error.  A
`SwitchBank` request moves the chip to that bank. -/
def transfer_inner (op : Operation) (waitNs : Option Nat) : M Frame := fun s =>
  let txn : Txn := ⟨op.to_frame, waitNs.getD MIN_WAIT_TIME_NS⟩
  let newBank := match op with
    | .switchBank b => b
    | _ => s.chipBank
  match s.responses with
  | [] => (.error (.err .spi), { s with trace := s.trace ++ [txn] })
  | r :: rest => (.ok r, ⟨rest, s.trace ++ [txn], newBank⟩)

/-- `Scl3300::write` (src/lib.rs): a transfer whose response frame is
discarded without any CRC or status validation. -/
def write (op : Operation) (waitNs : Option Nat) : M Unit := fun s =>
  match transfer_inner op waitNs s with
  | (.error o, s1) => (.error o, s1)
  | (.ok _, s1) => (.ok (), s1)

/-- `Scl3300::transfer` (src/lib.rs): a transfer whose response frame is CRC
checked and whose return status is decoded; `StartupInProgress` is the
`Startup` error, `Error` is the `ReturnStatus` error, and only
`NormalOperation` yields the frame. -/
def transfer (op : Operation) (waitNs : Option Nat) : M Frame := fun s =>
  match transfer_inner op waitNs s with
  | (.error o, s1) => (.error o, s1)
  | (.ok frame, s1) =>
    match frame.check_crc with
    | .error e => (.error (.err e), s1)
    | .ok () =>
      match frame.return_status with
      | some .startupInProgress => (.error (.err .startup), s1)
      | some .error => (.error (.err .returnStatus), s1)
      | some .normalOperation => (.ok frame, s1)
      | none => (.error .panic, s1)

/-- `Scl3300::start_up_inner` (src/lib.rs): reset, select the mode, enable
angle outputs, two throwaway status reads, then a validated status read; on
success the session is in normal operation with the given mode. -/
def start_up_inner (mode : MeasurementMode) : M MeasurementMode := do
  write .reset (some RESET_TIME_NS)
  write (.changeMode mode) none
  write .enableAngleOutputs (some mode.start_up_wait_time_ns)
  write (.read .status) none
  write (.read .status) none
  let _ ← transfer (.read .status) none
  pure mode

/-- The initial SPI model state: the chip will answer with `rs`, nothing has
been issued yet, and the chip is in bank 0. -/
def initState (rs : List Frame) : SpiState :=
  ⟨rs, [], .zero⟩

/-- `transfer_with_bank` (src/off_frame_read.rs): if the tracked bank is not
the required one, first issue a `SwitchBank` transfer (capturing its response
data), then issue the operation; the value returned to the caller is the
switch response when a switch happened, otherwise the operation's response.
The `&mut Bank` argument is modelled by returning the updated bank. -/
def transfer_with_bank (currentBank requiredBank : Bank) (op : Operation) :
    M (Nat × Bank) := do
  let (lastValue1, cb) ←
    if currentBank ≠ requiredBank then do
      let f ← transfer (.switchBank requiredBank) none
      M.pure (some f.data, requiredBank)
    else
      M.pure ((none : Option Nat), currentBank)
  let f2 ← transfer op none
  M.pure (lastValue1.getD f2.data, cb)

/-- Acceleration reading (src/output.rs, `Acceleration`): raw `u16` words
per axis plus the measurement mode captured at read time. -/
structure Acceleration where
  x : Nat
  y : Nat
  z : Nat
  mode : MeasurementMode
deriving DecidableEq, Repr

/-- Inclination reading (src/output.rs, `Inclination`): raw `u16` words. -/
structure Inclination where
  x : Nat
  y : Nat
  z : Nat
deriving DecidableEq, Repr

/-- Temperature reading (src/output.rs, `Temperature`): raw `u16` word. -/
structure Temperature where
  temp : Nat
deriving DecidableEq, Repr

/-- Serial number reading (src/output.rs, `Serial`): two raw `u16` halves. -/
structure Serial where
  part1 : Nat
  part2 : Nat
deriving DecidableEq, Repr

/-- `OffFrameRead for Acceleration`, `start_read` (src/off_frame_read.rs):
issue the X/Y/Z acceleration reads; the X transfer's response is handed back
as the pending previous value, Y's response fills `x`, Z's response fills
`y`, and `z` stays unfilled until `finish_read`. -/
def Acceleration.start_read (mode : MeasurementMode) (currentBank : Bank) :
    M (Nat × Acceleration × Bank) := do
  let f1 ← transfer (.read .accelerationX) none
  let f2 ← transfer (.read .accelerationY) none
  let f3 ← transfer (.read .accelerationZ) none
  M.pure (f1.data, ⟨f2.data, f3.data, 0, mode⟩, currentBank)

/-- `OffFrameRead for Acceleration`, `finish_read`: the trailing response
fills `z`. -/
def Acceleration.finish_read (a : Acceleration) (lastValue : Nat) : Acceleration :=
  { a with z := lastValue }

/-- `OffFrameRead for Inclination`, `start_read` (src/off_frame_read.rs). -/
def Inclination.start_read (currentBank : Bank) :
    M (Nat × Inclination × Bank) := do
  let (lv, cb) ← transfer_with_bank currentBank .zero (.read .angleX)
  let f2 ← transfer (.read .angleY) none
  let f3 ← transfer (.read .angleZ) none
  M.pure (lv, ⟨f2.data, f3.data, 0⟩, cb)

/-- `OffFrameRead for Inclination`, `finish_read`. -/
def Inclination.finish_read (i : Inclination) (lastValue : Nat) : Inclination :=
  { i with z := lastValue }

/-- `OffFrameRead for Temperature`, `start_read` (src/off_frame_read.rs). -/
def Temperature.start_read (currentBank : Bank) :
    M (Nat × Temperature × Bank) := do
  let f1 ← transfer (.read .temperature) none
  M.pure (f1.data, ⟨0⟩, currentBank)

/-- `OffFrameRead for Temperature`, `finish_read`. -/
def Temperature.finish_read (_t : Temperature) (lastValue : Nat) : Temperature :=
  ⟨lastValue⟩

/-- `OffFrameRead for Serial`, `start_read` (src/off_frame_read.rs): switch
to bank 1 if needed, read `Serial1` and `Serial2`; `Serial2`'s response
fills `part1`, `part2` stays unfilled until `finish_read`. -/
def Serial.start_read (currentBank : Bank) : M (Nat × Serial × Bank) := do
  let (lv, cb) ← transfer_with_bank currentBank .one (.read .serial1)
  let f2 ← transfer (.read .serial2) none
  M.pure (lv, ⟨f2.data, 0⟩, cb)

/-- `OffFrameRead for Serial`, `finish_read`. -/
def Serial.finish_read (sr : Serial) (lastValue : Nat) : Serial :=
  { sr with part2 := lastValue }

/-- `Scl3300::read::<Serial>` (src/lib.rs `read` instantiated at `Serial`):
start with a fresh bank tracker at `Bank::Zero`, discard the pending value
returned by `start_read`, then issue the final `SwitchBank(Zero)` transfer
whose response fills the last requested value. -/
def read_serial : M Serial := do
  let (_, acc0, _) ← Serial.start_read .zero
  let f ← transfer (.switchBank .zero) none
  M.pure (acc0.finish_read f.data)

/-- `Scl3300::read::<Acceleration>` (src/lib.rs `read` instantiated at
`Acceleration`). -/
def read_acceleration (mode : MeasurementMode) : M Acceleration := do
  let (_, acc0, _) ← Acceleration.start_read mode .zero
  let f ← transfer (.switchBank .zero) none
  M.pure (acc0.finish_read f.data)

/-- `Scl3300::read::<(Acceleration, Inclination, Temperature)>` (src/lib.rs
`read` at the 3-tuple instance produced by `off_frame_read_tuple!`): each
component's `start_read` chains after the previous one, the value returned
by component `k+1`'s `start_read` finishes component `k`, the very first
pending value is discarded, and the final `SwitchBank(Zero)` transfer's
response finishes the last component. -/
def read_acc_inc_temp (mode : MeasurementMode) :
    M (Acceleration × Inclination × Temperature) := do
  let (_, a0, cb1) ← Acceleration.start_read mode .zero
  let (lv2, i0, cb2) ← Inclination.start_read cb1
  let a1 := a0.finish_read lv2
  let (lv3, t0, _) ← Temperature.start_read cb2
  let i1 := i0.finish_read lv3
  let f ← transfer (.switchBank .zero) none
  let t1 := t0.finish_read f.data
  M.pure (a1, i1, t1)

/-- `Inclination::raw_to_degrees` (src/output.rs): `raw as f32 / 16384.0 *
90.0`, with no signed cast on the raw word.  For every `u16` raw word this
`f32` computation is exact (the quotient has a 16-bit mantissa and the
product `raw * 90 < 2^23`), so it is embedded as the equal rational. -/
def Inclination.raw_to_degrees (raw : Nat) : ℚ :=
  (raw : ℚ) / 16384 * 90

/-- `Inclination::x_degrees` (src/output.rs). -/
def Inclination.x_degrees (i : Inclination) : ℚ :=
  Inclination.raw_to_degrees i.x

/-- The `as i16` reinterpretation of a `u16` word (two's complement). -/
def toSigned16 (raw : Nat) : Int :=
  if raw < 32768 then (raw : Int) else (raw : Int) - 65536

/-- Modelled from the spec's words (§4.5): inclination angle is `raw as
signed16 / 16384 * 90` degrees; stated for comparison against the source's
`Inclination.raw_to_degrees`. -/
def specSignedRawToDegrees (raw : Nat) : ℚ :=
  (toSigned16 raw : ℚ) / 16384 * 90

/-- `Serial::to_u32` (src/output.rs): big-endian recombination of the
big-endian bytes of `part2` followed by those of `part1`. -/
def Serial.to_u32 (sr : Serial) : Nat :=
  ((sr.part2 / 256 % 256 * 256 + sr.part2 % 256) * 256
    + sr.part1 / 256 % 256) * 256 + sr.part1 % 256

/-- Zero-padding to width 10 (Rust's `{:010}` format specifier for an
unsigned value). -/
def zeroPad10 (n : Nat) : String :=
  String.mk (List.replicate (10 - (Nat.repr n).length) '0') ++ Nat.repr n

/-- `Display for Serial` (src/output.rs): the serial number zero-padded to
10 decimal digits, followed by the literal suffix. -/
def Serial.display (sr : Serial) : String :=
  zeroPad10 sr.to_u32 ++ "B33"

/-- Unfolding lemma: running a sequenced computation. -/
theorem M.run_bind {α β : Type} (ma : M α) (f : α → M β) (s : SpiState) :
    (ma >>= f) s =
      match ma s with
      | (.error o, s1) => (.error o, s1)
      | (.ok a, s1) => f a s1 :=
  rfl

/-- Unfolding lemma: running a pure computation. -/
theorem M.run_pure {α : Type} (a : α) (s : SpiState) :
    (Pure.pure a : M α) s = (.ok a, s) :=
  rfl

/-- The transaction sequence claimed for `start_up`: reset with a 1 ms wait,
mode change with the minimum wait, enable-angle-outputs with the
mode-dependent settle wait, then three status reads with minimum waits. -/
def startUpTxns (mode : MeasurementMode) : List Txn :=
  [⟨Operation.reset.to_frame, RESET_TIME_NS⟩,
   ⟨(Operation.changeMode mode).to_frame, MIN_WAIT_TIME_NS⟩,
   ⟨Operation.enableAngleOutputs.to_frame, mode.start_up_wait_time_ns⟩,
   ⟨(Operation.read .status).to_frame, MIN_WAIT_TIME_NS⟩,
   ⟨(Operation.read .status).to_frame, MIN_WAIT_TIME_NS⟩,
   ⟨(Operation.read .status).to_frame, MIN_WAIT_TIME_NS⟩]

/-- C1: for every operation the spec lists a frame constant for,
`Operation::to_frame` produces exactly the big-endian byte decomposition of
that 32-bit constant. -/
theorem toFrame_matches_spec_constants :
    (Operation.read .whoAmI).to_frame = ⟨0x40, 0x00, 0x00, 0x91⟩ ∧
    (Operation.read .status).to_frame = ⟨0x18, 0x00, 0x00, 0xE5⟩ ∧
    (Operation.read .error1).to_frame = ⟨0x1C, 0x00, 0x00, 0xE3⟩ ∧
    (Operation.read .error2).to_frame = ⟨0x20, 0x00, 0x00, 0xC1⟩ ∧
    (Operation.read .accelerationX).to_frame = ⟨0x04, 0x00, 0x00, 0xF7⟩ ∧
    (Operation.read .accelerationY).to_frame = ⟨0x08, 0x00, 0x00, 0xFD⟩ ∧
    (Operation.read .accelerationZ).to_frame = ⟨0x0C, 0x00, 0x00, 0xFB⟩ ∧
    (Operation.read .angleX).to_frame = ⟨0x24, 0x00, 0x00, 0xC7⟩ ∧
    (Operation.read .angleY).to_frame = ⟨0x28, 0x00, 0x00, 0xCD⟩ ∧
    (Operation.read .angleZ).to_frame = ⟨0x2C, 0x00, 0x00, 0xCB⟩ ∧
    (Operation.read .temperature).to_frame = ⟨0x14, 0x00, 0x00, 0xEF⟩ ∧
    (Operation.read .selfTest).to_frame = ⟨0x10, 0x00, 0x00, 0xE9⟩ ∧
    (Operation.read .serial1).to_frame = ⟨0x64, 0x00, 0x00, 0xA7⟩ ∧
    (Operation.read .serial2).to_frame = ⟨0x68, 0x00, 0x00, 0xAD⟩ ∧
    (Operation.enableAngleOutputs).to_frame = ⟨0xB0, 0x00, 0x1F, 0x6F⟩ ∧
    (Operation.changeMode .fullScale12).to_frame = ⟨0xB4, 0x00, 0x00, 0x1F⟩ ∧
    (Operation.changeMode .fullScale24).to_frame = ⟨0xB4, 0x00, 0x01, 0x02⟩ ∧
    (Operation.changeMode .inclination).to_frame = ⟨0xB4, 0x00, 0x02, 0x25⟩ ∧
    (Operation.changeMode .inclinationLowNoise).to_frame = ⟨0xB4, 0x00, 0x03, 0x38⟩ ∧
    (Operation.powerDown).to_frame = ⟨0xB4, 0x00, 0x04, 0x6B⟩ ∧
    (Operation.wakeUp).to_frame = ⟨0xB4, 0x00, 0x00, 0x1F⟩ ∧
    (Operation.reset).to_frame = ⟨0xB4, 0x00, 0x20, 0x98⟩ ∧
    (Operation.switchBank .zero).to_frame = ⟨0xFC, 0x00, 0x00, 0x73⟩ ∧
    (Operation.switchBank .one).to_frame = ⟨0xFC, 0x00, 0x01, 0x6E⟩ := by
  decide

/-- C6: `check_crc` succeeds exactly when the CRC-8 of bytes 0–2 (poly
`0x1D`, init `0xFF`, 8 iterations per byte, final complement) equals byte 3,
and returns the `Crc` error exactly when they differ; the six known 4-byte
vectors all pass verification. -/
theorem check_crc_iff_and_vectors (f : Frame) :
    (f.check_crc = .ok () ↔ crc8 [f.b0, f.b1, f.b2] = f.b3) ∧
    (f.check_crc = .error .crc ↔ crc8 [f.b0, f.b1, f.b2] ≠ f.b3) ∧
    (Frame.mk 183 0 2 169).check_crc = .ok () ∧
    (Frame.mk 25 0 18 157).check_crc = .ok () ∧
    (Frame.mk 25 0 0 106).check_crc = .ok () ∧
    (Frame.mk 27 0 18 158).check_crc = .ok () ∧
    (Frame.mk 24 0 0 229).check_crc = .ok () ∧
    (Frame.mk 183 0 0 147).check_crc = .ok () := by
  refine ⟨?_, ?_, by decide, by decide, by decide, by decide, by decide, by decide⟩
  · unfold Frame.check_crc
    split <;> simp_all
  · unfold Frame.check_crc
    split <;> simp_all

/-- C6 witness at a concrete frame. -/
theorem check_crc_iff_and_vectors_witness :
    (Frame.mk 183 0 2 169).check_crc = .ok () := by
  have h := check_crc_iff_and_vectors (Frame.mk 183 0 2 169)
  exact h.2.2.1

/-- C10: every frame `Operation::to_frame` can produce carries a valid CRC
trailer: its fourth byte is the CRC-8 of its first three bytes, so
`check_crc` succeeds on every frame the driver sends. -/
theorem toFrame_crc_valid (op : Operation) :
    crc8 [op.to_frame.b0, op.to_frame.b1, op.to_frame.b2] = op.to_frame.b3 ∧
    op.to_frame.check_crc = .ok () := by
  cases op with
  | read o => cases o <;> exact ⟨by decide, by decide⟩
  | changeMode m => cases m <;> exact ⟨by decide, by decide⟩
  | switchBank b => cases b <;> exact ⟨by decide, by decide⟩
  | enableAngleOutputs => exact ⟨by decide, by decide⟩
  | powerDown => exact ⟨by decide, by decide⟩
  | wakeUp => exact ⟨by decide, by decide⟩
  | reset => exact ⟨by decide, by decide⟩

/-- C10 witness at a concrete operation. -/
theorem toFrame_crc_valid_witness :
    crc8 [(Operation.reset).to_frame.b0, (Operation.reset).to_frame.b1,
      (Operation.reset).to_frame.b2] = (Operation.reset).to_frame.b3 ∧
    (Operation.reset).to_frame.check_crc = .ok () :=
  toFrame_crc_valid .reset

/-- C7: the return status is decoded from the low 2 bits of byte 0 as
`00 ↦ StartupInProgress`, `01 ↦ NormalOperation`, `11 ↦ Error`, and for
every frame whose low 2 bits are not the (chip-excluded) encoding `10` the
decoder's remaining branch is not taken. -/
theorem return_status_decodes (f : Frame) (h : f.b0 &&& 0b11 ≠ 2) :
    (f.b0 &&& 0b11 = 0 → f.return_status = some .startupInProgress) ∧
    (f.b0 &&& 0b11 = 1 → f.return_status = some .normalOperation) ∧
    (f.b0 &&& 0b11 = 3 → f.return_status = some .error) ∧
    f.return_status ≠ none := by
  have hle : f.b0 &&& 0b11 ≤ 3 := Nat.and_le_right
  have hcases : f.b0 &&& 0b11 = 0 ∨ f.b0 &&& 0b11 = 1 ∨ f.b0 &&& 0b11 = 3 := by
    omega
  unfold Frame.return_status
  rcases hcases with h0 | h1 | h3
  · rw [h0]; simp
  · rw [h1]; simp
  · rw [h3]; simp

/-- C7 witness at a concrete frame. -/
theorem return_status_decodes_witness :
    (Frame.mk 25 0 18 157).b0 &&& 0b11 ≠ 2 ∧
    (Frame.mk 25 0 18 157).return_status = some .normalOperation := by
  refine ⟨by decide, ?_⟩
  exact (return_status_decodes (Frame.mk 25 0 18 157) (by decide)).2.1 (by decide)

/-- C8 counterexample: at the raw word `0x8000` the code's conversion yields
`+180°`, while the claimed signed interpretation yields `-180°`; the code's
result is not negative, refuting the claim for raw words at or above
`0x8000`. -/
theorem raw_to_degrees_not_signed :
    Inclination.raw_to_degrees 0x8000 = 180 ∧
    specSignedRawToDegrees 0x8000 = -180 ∧
    Inclination.raw_to_degrees 0x8000 ≠ specSignedRawToDegrees 0x8000 ∧
    ¬ Inclination.raw_to_degrees 0x8000 < 0 ∧
    (Inclination.mk 0x8000 0 0).x_degrees = 180 := by
  norm_num [Inclination.raw_to_degrees, specSignedRawToDegrees, toSigned16,
    Inclination.x_degrees]

/-- C8 amended: the degree conversion treats the raw 16-bit word as
unsigned: it equals `raw / 16384 * 90` with no sign reinterpretation, so for
raw words at or above `0x8000` the result is at least `180°`, and every
result lies in `[0°, 360°)`. -/
theorem raw_to_degrees_unsigned (raw : Nat) (h : raw < 65536) :
    Inclination.raw_to_degrees raw = (raw : ℚ) / 16384 * 90 ∧
    (Inclination.mk raw 0 0).x_degrees = Inclination.raw_to_degrees raw ∧
    (32768 ≤ raw → 180 ≤ Inclination.raw_to_degrees raw) ∧
    0 ≤ Inclination.raw_to_degrees raw ∧
    Inclination.raw_to_degrees raw < 360 := by
  have hq : (raw : ℚ) < 65536 := by exact_mod_cast h
  have hq0 : (0 : ℚ) ≤ (raw : ℚ) := Nat.cast_nonneg raw
  refine ⟨rfl, rfl, ?_, ?_, ?_⟩
  · intro h32
    have hr : (32768 : ℚ) ≤ (raw : ℚ) := by exact_mod_cast h32
    unfold Inclination.raw_to_degrees
    rw [div_mul_eq_mul_div, le_div_iff₀ (by norm_num : (0:ℚ) < 16384)]
    linarith
  · unfold Inclination.raw_to_degrees
    positivity
  · unfold Inclination.raw_to_degrees
    rw [div_mul_eq_mul_div, div_lt_iff₀ (by norm_num : (0:ℚ) < 16384)]
    linarith

/-- C8 amended witness at a concrete raw word. -/
theorem raw_to_degrees_unsigned_witness :
    Inclination.raw_to_degrees 40000 = (40000 : ℚ) / 16384 * 90 ∧
    (Inclination.mk 40000 0 0).x_degrees = Inclination.raw_to_degrees 40000 ∧
    (32768 ≤ 40000 → 180 ≤ Inclination.raw_to_degrees 40000) ∧
    0 ≤ Inclination.raw_to_degrees 40000 ∧
    Inclination.raw_to_degrees 40000 < 360 :=
  raw_to_degrees_unsigned 40000 (by norm_num)

/-- C9: the serial number is `part2` as the high 16-bit half concatenated
big-endian with `part1` as the low half, and it is displayed zero-padded to
10 decimal digits with the suffix `B33`; in particular the two example part
pairs display as claimed. -/
theorem serial_to_u32_and_display (p1 p2 : Nat) (h1 : p1 < 65536) (h2 : p2 < 65536) :
    (Serial.mk p1 p2).to_u32 = p2 * 65536 + p1 ∧
    (Serial.mk 0xF7DA 0x3CE5).to_u32 = 1021704154 ∧
    (Serial.mk 0xF7DA 0x3CE5).display = "1021704154B33" ∧
    (Serial.mk 0 0).display = "0000000000B33" := by
  refine ⟨?_, by decide, ?_, ?_⟩
  · show ((p2 / 256 % 256 * 256 + p2 % 256) * 256 + p1 / 256 % 256) * 256
        + p1 % 256 = p2 * 65536 + p1
    omega
  · rfl
  · rfl

/-- C9 witness at the example part pair. -/
theorem serial_to_u32_and_display_witness :
    (Serial.mk 0xF7DA 0x3CE5).to_u32 = 0x3CE5 * 65536 + 0xF7DA ∧
    (Serial.mk 0xF7DA 0x3CE5).display = "1021704154B33" := by
  have h := serial_to_u32_and_display 0xF7DA 0x3CE5 (by norm_num) (by norm_num)
  exact ⟨h.1, h.2.2.1⟩

/-- C2: for every mode and any six chip responses, `start_up` issues exactly
the claimed transaction sequence — Reset with a 1 ms wait, ChangeMode with
only the minimum wait, EnableAngleOutputs with the mode-dependent settle
wait (25 ms / 15 ms / 100 ms), then three Status reads — consuming exactly
six responses; when the sixth response (the only one whose status is
checked) has a valid CRC, its status decides the result: StartupInProgress
fails with the Startup error, Error fails with the ReturnStatus error, and
NormalOperation yields a normal-mode session in the requested mode. -/
theorem start_up_sequence (mode : MeasurementMode)
    (r1 r2 r3 r4 r5 r6 : Frame) (rest : List Frame)
    (hcrc : r6.check_crc = .ok ()) :
    (start_up_inner mode (initState (r1 :: r2 :: r3 :: r4 :: r5 :: r6 :: rest))).2.trace
      = startUpTxns mode ∧
    (start_up_inner mode (initState (r1 :: r2 :: r3 :: r4 :: r5 :: r6 :: rest))).2.responses
      = rest ∧
    (r6.return_status = some .startupInProgress →
      (start_up_inner mode (initState (r1 :: r2 :: r3 :: r4 :: r5 :: r6 :: rest))).1
        = .error (.err .startup)) ∧
    (r6.return_status = some .error →
      (start_up_inner mode (initState (r1 :: r2 :: r3 :: r4 :: r5 :: r6 :: rest))).1
        = .error (.err .returnStatus)) ∧
    (r6.return_status = some .normalOperation →
      (start_up_inner mode (initState (r1 :: r2 :: r3 :: r4 :: r5 :: r6 :: rest))).1
        = .ok mode) := by
  rcases h6 : r6.return_status with - | st
  · simp [start_up_inner, write, transfer, transfer_inner, initState,
      M.run_bind, M.run_pure, startUpTxns, hcrc, h6]
  · cases st <;>
      simp [start_up_inner, write, transfer, transfer_inner, initState,
        M.run_bind, M.run_pure, startUpTxns, hcrc, h6]

/-- C2 witness: a concrete successful start-up run. -/
theorem start_up_sequence_witness :
    (Frame.mk 25 0 18 157).check_crc = .ok () ∧
    (Frame.mk 25 0 18 157).return_status = some .normalOperation ∧
    (start_up_inner .inclination (initState
      [⟨0, 0, 0, 0⟩, ⟨0, 0, 0, 0⟩, ⟨0, 0, 0, 0⟩, ⟨0, 0, 0, 0⟩, ⟨0, 0, 0, 0⟩,
        ⟨25, 0, 18, 157⟩])).1 = .ok .inclination := by
  refine ⟨by decide, by decide, ?_⟩
  exact (start_up_sequence .inclination ⟨0, 0, 0, 0⟩ ⟨0, 0, 0, 0⟩ ⟨0, 0, 0, 0⟩
    ⟨0, 0, 0, 0⟩ ⟨0, 0, 0, 0⟩ ⟨25, 0, 18, 157⟩ [] (by decide)).2.2.2.2 (by decide)

/-- C3 counterexample: the first five responses of a start-up run all fail
CRC verification (`crc8 [0,0,0] = 241 ≠ 0`), yet start-up succeeds, because
the first five transfers never validate the returned frame's CRC. -/
theorem start_up_ignores_early_crc_mismatch :
    (Frame.mk 0 0 0 0).check_crc = .error .crc ∧
    (start_up_inner .inclination (initState
      [⟨0, 0, 0, 0⟩, ⟨0, 0, 0, 0⟩, ⟨0, 0, 0, 0⟩, ⟨0, 0, 0, 0⟩, ⟨0, 0, 0, 0⟩,
        ⟨25, 0, 18, 157⟩])).1 = .ok .inclination := by
  exact ⟨by decide, by decide⟩

/-- C3 amended: of the six start-up transfers only the sixth (the final
Status read) validates the CRC of the returned frame; a CRC mismatch there
makes the whole start-up attempt return the Crc error immediately, with no
retry — exactly six transactions are issued and exactly six responses are
consumed — while the first five responses are never CRC-checked. -/
theorem start_up_crc_checked_on_final_transfer (mode : MeasurementMode)
    (r1 r2 r3 r4 r5 r6 : Frame) (rest : List Frame)
    (hcrc : r6.check_crc = .error .crc) :
    (start_up_inner mode (initState (r1 :: r2 :: r3 :: r4 :: r5 :: r6 :: rest))).1
      = .error (.err .crc) ∧
    (start_up_inner mode (initState (r1 :: r2 :: r3 :: r4 :: r5 :: r6 :: rest))).2.trace
      = startUpTxns mode ∧
    (start_up_inner mode (initState (r1 :: r2 :: r3 :: r4 :: r5 :: r6 :: rest))).2.responses
      = rest := by
  simp [start_up_inner, write, transfer, transfer_inner, initState,
    M.run_bind, M.run_pure, startUpTxns, hcrc]

/-- C3 amended witness: a concrete run whose sixth response fails CRC. -/
theorem start_up_crc_checked_on_final_transfer_witness :
    (Frame.mk 0 0 0 0).check_crc = .error .crc ∧
    (start_up_inner .fullScale12 (initState
      [⟨25, 0, 18, 157⟩, ⟨0, 0, 0, 0⟩, ⟨0, 0, 0, 0⟩, ⟨0, 0, 0, 0⟩, ⟨0, 0, 0, 0⟩,
        ⟨0, 0, 0, 0⟩])).1 = .error (.err .crc) := by
  refine ⟨by decide, ?_⟩
  exact (start_up_crc_checked_on_final_transfer .fullScale12 ⟨25, 0, 18, 157⟩
    ⟨0, 0, 0, 0⟩ ⟨0, 0, 0, 0⟩ ⟨0, 0, 0, 0⟩ ⟨0, 0, 0, 0⟩ ⟨0, 0, 0, 0⟩ [] (by decide)).1

/-- The transaction sequence of the seven-register composite read
`(Acceleration, Inclination, Temperature)` followed by its finalizing
bank-switch transfer. -/
def readAccIncTempTxns : List Txn :=
  [⟨(Operation.read .accelerationX).to_frame, MIN_WAIT_TIME_NS⟩,
   ⟨(Operation.read .accelerationY).to_frame, MIN_WAIT_TIME_NS⟩,
   ⟨(Operation.read .accelerationZ).to_frame, MIN_WAIT_TIME_NS⟩,
   ⟨(Operation.read .angleX).to_frame, MIN_WAIT_TIME_NS⟩,
   ⟨(Operation.read .angleY).to_frame, MIN_WAIT_TIME_NS⟩,
   ⟨(Operation.read .angleZ).to_frame, MIN_WAIT_TIME_NS⟩,
   ⟨(Operation.read .temperature).to_frame, MIN_WAIT_TIME_NS⟩,
   ⟨(Operation.switchBank .zero).to_frame, MIN_WAIT_TIME_NS⟩]

/-- C4, instantiated at the composite read `(Acceleration, Inclination,
Temperature)` of K = 7 outputs: the driver issues the 7 read requests
followed by exactly one extra transfer (the finalizing bank switch); the
response of the i-th issued transfer (i = 2..8) fills the value slot of
request i−1, the response of the very first transfer is discarded, and the
extra transfer's response fills the last requested value. -/
theorem off_frame_pipeline_fills_previous_slot (mode : MeasurementMode)
    (r1 r2 r3 r4 r5 r6 r7 r8 : Frame) (rest : List Frame)
    (hc1 : r1.check_crc = .ok ()) (hs1 : r1.return_status = some .normalOperation)
    (hc2 : r2.check_crc = .ok ()) (hs2 : r2.return_status = some .normalOperation)
    (hc3 : r3.check_crc = .ok ()) (hs3 : r3.return_status = some .normalOperation)
    (hc4 : r4.check_crc = .ok ()) (hs4 : r4.return_status = some .normalOperation)
    (hc5 : r5.check_crc = .ok ()) (hs5 : r5.return_status = some .normalOperation)
    (hc6 : r6.check_crc = .ok ()) (hs6 : r6.return_status = some .normalOperation)
    (hc7 : r7.check_crc = .ok ()) (hs7 : r7.return_status = some .normalOperation)
    (hc8 : r8.check_crc = .ok ()) (hs8 : r8.return_status = some .normalOperation) :
    (read_acc_inc_temp mode
        (initState (r1 :: r2 :: r3 :: r4 :: r5 :: r6 :: r7 :: r8 :: rest))).1
      = .ok (⟨r2.data, r3.data, r4.data, mode⟩, ⟨r5.data, r6.data, r7.data⟩,
          ⟨r8.data⟩) ∧
    (read_acc_inc_temp mode
        (initState (r1 :: r2 :: r3 :: r4 :: r5 :: r6 :: r7 :: r8 :: rest))).2.trace
      = readAccIncTempTxns ∧
    (read_acc_inc_temp mode
        (initState (r1 :: r2 :: r3 :: r4 :: r5 :: r6 :: r7 :: r8 :: rest))).2.responses
      = rest := by
  simp [read_acc_inc_temp, Acceleration.start_read, Inclination.start_read,
    Temperature.start_read, transfer_with_bank, Acceleration.finish_read,
    Inclination.finish_read, Temperature.finish_read, transfer, transfer_inner,
    initState, M.run_bind, M.run_pure, M.pure, readAccIncTempTxns,
    hc1, hs1, hc2, hs2, hc3, hs3, hc4, hs4, hc5, hs5, hc6, hs6, hc7, hs7, hc8, hs8]

/-- C4 witness: a concrete composite read in which the i-th response carries
the data word i, landing in the value slot of request i−1. -/
theorem off_frame_pipeline_fills_previous_slot_witness :
    (read_acc_inc_temp .inclination (initState
      [⟨25, 0, 1, 119⟩, ⟨25, 0, 2, 80⟩, ⟨25, 0, 3, 77⟩, ⟨25, 0, 4, 30⟩,
       ⟨25, 0, 5, 3⟩, ⟨25, 0, 6, 36⟩, ⟨25, 0, 7, 57⟩, ⟨25, 0, 8, 130⟩])).1
      = .ok (⟨2, 3, 4, .inclination⟩, ⟨5, 6, 7⟩, ⟨8⟩) :=
  (off_frame_pipeline_fills_previous_slot .inclination
    ⟨25, 0, 1, 119⟩ ⟨25, 0, 2, 80⟩ ⟨25, 0, 3, 77⟩ ⟨25, 0, 4, 30⟩
    ⟨25, 0, 5, 3⟩ ⟨25, 0, 6, 36⟩ ⟨25, 0, 7, 57⟩ ⟨25, 0, 8, 130⟩ []
    (by decide) (by decide) (by decide) (by decide) (by decide) (by decide)
    (by decide) (by decide) (by decide) (by decide) (by decide) (by decide)
    (by decide) (by decide) (by decide) (by decide)).1

/-- C5: a serial read (the only Bank::One registers) first switches to
Bank::One, reads Serial1 and Serial2, and its finalization issues
SwitchBank(Zero), so after the read returns successfully the selected bank
is Bank::Zero. -/
theorem serial_read_restores_bank_zero
    (r1 r2 r3 r4 : Frame) (rest : List Frame)
    (hc1 : r1.check_crc = .ok ()) (hs1 : r1.return_status = some .normalOperation)
    (hc2 : r2.check_crc = .ok ()) (hs2 : r2.return_status = some .normalOperation)
    (hc3 : r3.check_crc = .ok ()) (hs3 : r3.return_status = some .normalOperation)
    (hc4 : r4.check_crc = .ok ()) (hs4 : r4.return_status = some .normalOperation) :
    (read_serial (initState (r1 :: r2 :: r3 :: r4 :: rest))).1
      = .ok ⟨r3.data, r4.data⟩ ∧
    (read_serial (initState (r1 :: r2 :: r3 :: r4 :: rest))).2.trace
      = [⟨(Operation.switchBank .one).to_frame, MIN_WAIT_TIME_NS⟩,
         ⟨(Operation.read .serial1).to_frame, MIN_WAIT_TIME_NS⟩,
         ⟨(Operation.read .serial2).to_frame, MIN_WAIT_TIME_NS⟩,
         ⟨(Operation.switchBank .zero).to_frame, MIN_WAIT_TIME_NS⟩] ∧
    (read_serial (initState (r1 :: r2 :: r3 :: r4 :: rest))).2.chipBank = .zero ∧
    (read_serial (initState (r1 :: r2 :: r3 :: r4 :: rest))).2.responses = rest := by
  simp [read_serial, Serial.start_read, Serial.finish_read, transfer_with_bank,
    transfer, transfer_inner, initState, M.run_bind, M.run_pure, M.pure,
    hc1, hs1, hc2, hs2, hc3, hs3, hc4, hs4]

/-- C5 witness: a concrete successful serial read ends with the chip in
Bank::Zero. -/
theorem serial_read_restores_bank_zero_witness :
    (read_serial (initState
      [⟨25, 0, 1, 119⟩, ⟨25, 0, 2, 80⟩, ⟨25, 0, 3, 77⟩, ⟨25, 0, 4, 30⟩])).1
      = .ok ⟨3, 4⟩ ∧
    (read_serial (initState
      [⟨25, 0, 1, 119⟩, ⟨25, 0, 2, 80⟩, ⟨25, 0, 3, 77⟩, ⟨25, 0, 4, 30⟩])).2.chipBank
      = .zero := by
  have h := serial_read_restores_bank_zero
    ⟨25, 0, 1, 119⟩ ⟨25, 0, 2, 80⟩ ⟨25, 0, 3, 77⟩ ⟨25, 0, 4, 30⟩ []
    (by decide) (by decide) (by decide) (by decide) (by decide) (by decide)
    (by decide) (by decide)
  exact ⟨h.1, h.2.2.1⟩

end Scl3300
